import Mathlib

/-!
Verification of the ffmpeg-service pipeline orchestration layer (src/app.py).

The Python handlers are shallowly embedded: pure string/filter construction is
translated directly; subprocess results and network downloads are passed in as
explicit data (a `ProcResult` for an engine invocation, booleans for download
outcomes), so each handler becomes a total function from its request data and
the outcomes of its external calls to the response it produces.
-/

/-- A single-quote character, used when rendering filter expressions that quote
file paths and style strings. -/
def squote : String := ⟨[Char.ofNat 39]⟩

/- ============================================================
   Transform step executor: run_ffmpeg / get_media_info (src/app.py lines 52-73)
   ============================================================ -/

/-- Outcome of a spawned subprocess, as seen by `run_ffmpeg`:
`subprocess.run(cmd, capture_output=True, text=True)`. -/
structure ProcResult where
  returncode : Int
  stdout : String
  stderr : String
deriving DecidableEq

/-- The dict returned by `run_ffmpeg`. -/
structure FfmpegRunOutcome where
  success : Bool
  returncode : Int
  stdout : String
  stderr : Option String
deriving DecidableEq

/-- Python slice `s[-n:]`: the last `min n (length s)` characters of `s`. -/
def pyTailSlice (n : Nat) (s : String) : String :=
  ⟨s.data.drop (s.data.length - n)⟩

/-- Embedding of `run_ffmpeg` (src/app.py lines 65-73): success is
`returncode == 0`; stderr is `result.stderr[-1000:] if result.stderr else None`. -/
def run_ffmpeg (r : ProcResult) : FfmpegRunOutcome :=
  ⟨r.returncode == 0, r.returncode, r.stdout,
    if r.stderr = "" then none else some (pyTailSlice 1000 r.stderr)⟩

/-- Probe metadata parsed from ffprobe JSON output (`info["format"]["duration"]`). -/
structure MediaInfo where
  formatDuration : ℚ
deriving DecidableEq

/-- Embedding of `get_media_info` (src/app.py lines 52-63): if the ffprobe
subprocess exits 0 the parsed JSON is returned, otherwise `None`.
`parsed` stands for `json.loads(result.stdout)` on the success path. -/
def get_media_info (r : ProcResult) (parsed : MediaInfo) : Option MediaInfo :=
  if r.returncode = 0 then some parsed else none

/- ============================================================
   Subtitle burn-in style construction: add_subtitles (src/app.py lines 368-390)
   ============================================================ -/

/-- Embedding of `margin_v = 50 if position == 'bottom' else 50`
(src/app.py line 378). -/
def sub_margin_v (position : String) : Nat :=
  if position = "bottom" then 50 else 50

/-- Embedding of `alignment = 2 if position == 'bottom' else 6`
(src/app.py line 379, SSA alignment). -/
def sub_alignment (position : String) : Nat :=
  if position = "bottom" then 2 else 6

/-- Embedding of the `force_style=...` payload built at src/app.py lines
381-390.  The request's `font_color` and `outline_color` are read by the
handler but do not occur in the constructed string; the colours are the fixed
literals `&H00FFFFFF` and `&H00000000`. -/
def subtitle_force_style (font_size : Nat) (font_color outline_color position : String) :
    String :=
  "FontSize=" ++ Nat.repr font_size ++
  ",PrimaryColour=&H00FFFFFF" ++
  ",OutlineColour=&H00000000" ++
  ",BorderStyle=3" ++
  ",Outline=2" ++
  ",MarginV=" ++ Nat.repr (sub_margin_v position) ++
  ",Alignment=" ++ Nat.repr (sub_alignment position)

/-- Embedding of the whole `-vf` subtitle filter string
(src/app.py lines 381-390). -/
def subtitle_filter (srt_path : String) (font_size : Nat)
    (font_color outline_color position : String) : String :=
  "subtitles=" ++ squote ++ srt_path ++ squote ++ ":force_style=" ++ squote ++
    subtitle_force_style font_size font_color outline_color position ++ squote

/- ============================================================
   Crossfade concatenation: concat_videos (src/app.py lines 203-320)
   ============================================================ -/

/-- A labeled pad in the crossfade filter graph: a raw clip stream `[v i]`,
an intermediate transition output `[vout i]`, or the final result pad
`[vfinal]`. -/
inductive PadLabel where
  | clip : Nat → PadLabel
  | inter : Nat → PadLabel
  | vfinal : PadLabel
deriving DecidableEq

/-- Textual form of a pad label as it occurs in the built expression. -/
def renderLabel : PadLabel → String
  | PadLabel.clip i => "[v" ++ Nat.repr i ++ "]"
  | PadLabel.inter i => "[vout" ++ Nat.repr i ++ "]"
  | PadLabel.vfinal => "[vfinal]"

/-- One xfade transition stage of the chain: two input pads, the textual
offset parameter, and the output pad. -/
structure XfadeStage where
  left : PadLabel
  right : PadLabel
  offset : String
  out : PadLabel
deriving DecidableEq

/-- Stage `i` of the crossfade chain, as built by the loop at src/app.py
lines 285-289: stage 0 consumes `[v0][v1]` and emits `[vout0]`; stage `i>0`
consumes `[vout(i-1)][v(i+1)]` and emits `[vout i]`.  Every stage is written
with `offset=0`. -/
def mkXfadeStage (i : Nat) : XfadeStage :=
  if i = 0 then ⟨PadLabel.clip 0, PadLabel.clip 1, "0", PadLabel.inter 0⟩
  else ⟨PadLabel.inter (i - 1), PadLabel.clip (i + 1), "0", PadLabel.inter i⟩

/-- The whole chain built by `for i in range(n-1)` at src/app.py line 285. -/
def xfadeStages (n : Nat) : List XfadeStage :=
  (List.range (n - 1)).map mkXfadeStage

/-- Textual form of one stage, exactly the f-string at src/app.py
lines 287 and 289. -/
def renderXfadeStage (d : String) (s : XfadeStage) : String :=
  renderLabel s.left ++ renderLabel s.right ++
    "xfade=transition=fade:duration=" ++ d ++ ":offset=" ++ s.offset ++
    renderLabel s.out ++ ";"

/-- The `setpts`/`asetpts` normalization prefix built by the loop at
src/app.py lines 280-282. -/
def setptsPrefix (n : Nat) : String :=
  String.join ((List.range n).map (fun i =>
    "[" ++ Nat.repr i ++ ":v]setpts=PTS-STARTPTS[v" ++ Nat.repr i ++ "];" ++
    "[" ++ Nat.repr i ++ ":a]asetpts=PTS-STARTPTS[a" ++ Nat.repr i ++ "];"))

/-- The full `filter_complex` string for `transition == 'fade'`
(src/app.py lines 277-291): normalization prefix, the rendered chain of
`n-1` xfade stages, then `[vout{n-2}]null[vfinal]`. -/
def fadeFilterComplex (n : Nat) (d : String) : String :=
  setptsPrefix n ++
  String.join ((xfadeStages n).map (renderXfadeStage d)) ++
  (renderLabel (PadLabel.inter (n - 2)) ++ "null" ++ renderLabel PadLabel.vfinal)

/-- One entry of the request's `videos` list together with the outcome of
resolving it: `fetch b` is a dict with a recognized source key whose
download/decode succeeds iff `b`; `badKeys` is a dict with none of the keys
`url`, `job_id`, `base64`. -/
inductive ClipSpec where
  | fetch : Bool → ClipSpec
  | badKeys : ClipSpec
deriving DecidableEq

/-- Response classes the concat handler can produce before or instead of a
normal engine run: an immediate 400, an assembled engine command (the engine
is invoked with it), or a 500 produced by the surrounding exception handler. -/
inductive ConcatResult where
  | badRequest : String → ConcatResult
  | engineRun : List String → ConcatResult
  | exceptionCaught : String → ConcatResult
deriving DecidableEq

/-- The download loop at src/app.py lines 232-246: each entry is checked for
a recognized source key (else a 400 naming the index) and then fetched (a
fetch error raises and is caught by the handler's `except`). -/
def resolveClips : List ClipSpec → Nat → Except ConcatResult Unit
  | [], _ => Except.ok ()
  | ClipSpec.badKeys :: _, i =>
      Except.error (ConcatResult.badRequest ("Invalid video source at index " ++ Nat.repr i))
  | ClipSpec.fetch ok :: rest, i =>
      if ok then resolveClips rest (i + 1)
      else Except.error (ConcatResult.exceptionCaught ("download failed"))

/-- `['-i', path]` pairs for the n downloaded clips (src/app.py lines 272-274). -/
def concatInputArgs (n : Nat) : List String :=
  List.join ((List.range n).map (fun i => ["-i", "input_" ++ Nat.repr i ++ ".mp4"]))

/-- The concat-demuxer command of the `transition == 'none'` branch
(src/app.py lines 257-265). -/
def concatDemuxCmd (jobId : String) : List String :=
  ["ffmpeg", "-y", "-f", "concat", "-safe", "0", "-i", "inputs.txt",
   "-c", "copy", "-movflags", "+faststart", "concat_" ++ jobId ++ ".mp4"]

/-- The re-encoding command of the transition branch (src/app.py lines
293-303), parameterized by the filter-complex text. -/
def concatTransCmd (jobId : String) (n : Nat) (fc : String) : List String :=
  ["ffmpeg", "-y"] ++ concatInputArgs n ++
  ["-filter_complex", fc, "-map", "[vfinal]", "-c:v", "libx264",
   "-preset", "medium", "-crf", "23", "-movflags", "+faststart",
   "concat_" ++ jobId ++ ".mp4"]

/-- Embedding of the `concat_videos` handler (src/app.py lines 203-320) up to
its engine invocation.  The local variable `filter_complex` is assigned only
inside `if transition == 'fade'` (line 277); for any other non-`none`
transition, assembling the command at line 296 reads an unbound name, raising
a `NameError` that the handler's `except` turns into a 500. -/
def concat_videos (jobId : String) (clips : List ClipSpec) (transition d : String) :
    ConcatResult :=
  if clips.length < 2 then ConcatResult.badRequest ("At least 2 videos required")
  else
    match resolveClips clips 0 with
    | Except.error r => r
    | Except.ok _ =>
      if transition = "none" then ConcatResult.engineRun (concatDemuxCmd jobId)
      else
        match (if transition = "fade" then some (fadeFilterComplex clips.length d) else none) with
        | some fc => ConcatResult.engineRun (concatTransCmd jobId clips.length fc)
        | none =>
            ConcatResult.exceptionCaught
              ("name " ++ squote ++ "filter_complex" ++ squote ++ " is not defined")

/- ============================================================
   Background music mix: add_background_music (src/app.py lines 438-532)
   ============================================================ -/

/-- Embedding of the `music_filter` string built at src/app.py lines 489-494.
`music_vol` is the textual form of the request's music volume; `fade_st` and
`fade_d` are the textual forms of `duration - fade_out` and `fade_out` as
interpolated by the f-string. -/
def abm_music_filter (music_vol : String) (loop_music : Bool) (fade_out : ℚ)
    (fade_st fade_d : String) : String :=
  let mf :=
    if loop_music then "[1:a]aloop=loop=-1:size=2e+09,volume=" ++ music_vol
    else "[1:a]volume=" ++ music_vol
  let mf :=
    if 0 < fade_out then mf ++ (",afade=t=out:st=" ++ fade_st ++ ":d=" ++ fade_d)
    else mf
  mf ++ "[music]"

/-- Embedding of the `filter_complex` string built at src/app.py lines
496-500: voice volume chain, the music chain, then
`[voice][music]amix=inputs=2:duration=first[aout]`. -/
def abm_filter_complex (voice_vol music_vol : String) (loop_music : Bool)
    (fade_out : ℚ) (fade_st fade_d : String) : String :=
  ("[0:a]volume=" ++ voice_vol ++ "[voice];") ++
  (abm_music_filter music_vol loop_music fade_out fade_st fade_d ++ ";") ++
  "[voice][music]amix=inputs=2:duration=first[aout]"

/-- Modelled from the spec: the engine's `amix` with `duration=first` ends the
mixed output at the first listed input's duration, whatever the durations of
the remaining inputs (src/app.py passes `[voice]` first, so the voice track is
the first input).  The engine itself is an external collaborator and is not
part of src/. -/
def amixFirstDuration (durs : List ℚ) : ℚ := durs.headD 0

/- ============================================================
   Resize geometry: resize_video (src/app.py lines 539-631)
   ============================================================ -/

/-- One geometry filter of the `-vf` chain built at src/app.py lines 593-602,
carrying the target dimensions (and fill colour for pad) it was rendered with. -/
inductive GeoFilterOp where
  | scaleExact : Nat → Nat → GeoFilterOp
  | scaleDecrease : Nat → Nat → GeoFilterOp
  | scaleIncrease : Nat → Nat → GeoFilterOp
  | padCentered : Nat → Nat → String → GeoFilterOp
  | cropCentered : Nat → Nat → GeoFilterOp
  | setsar : GeoFilterOp
deriving DecidableEq

/-- Textual form of one geometry filter, exactly as interpolated at
src/app.py lines 596, 599 and 602. -/
def renderGeo : GeoFilterOp → String
  | GeoFilterOp.scaleExact w h => "scale=" ++ Nat.repr w ++ ":" ++ Nat.repr h
  | GeoFilterOp.scaleDecrease w h =>
      "scale=" ++ Nat.repr w ++ ":" ++ Nat.repr h ++ ":force_original_aspect_ratio=decrease"
  | GeoFilterOp.scaleIncrease w h =>
      "scale=" ++ Nat.repr w ++ ":" ++ Nat.repr h ++ ":force_original_aspect_ratio=increase"
  | GeoFilterOp.padCentered w h c =>
      "pad=" ++ Nat.repr w ++ ":" ++ Nat.repr h ++ ":(ow-iw)/2:(oh-ih)/2:color=" ++ c
  | GeoFilterOp.cropCentered w h => "crop=" ++ Nat.repr w ++ ":" ++ Nat.repr h
  | GeoFilterOp.setsar => "setsar=1"

/-- The comma-separated `-vf` chain for a given fit mode, structured as the
list of its filters (src/app.py lines 594-602: `contain` scales down then
pads, `cover` scales up then crops, anything else stretches). -/
def resizePlan (fit : String) (w h : Nat) (bg : String) : List GeoFilterOp :=
  if fit = "contain" then
    [GeoFilterOp.scaleDecrease w h, GeoFilterOp.padCentered w h bg, GeoFilterOp.setsar]
  else if fit = "cover" then
    [GeoFilterOp.scaleIncrease w h, GeoFilterOp.cropCentered w h, GeoFilterOp.setsar]
  else
    [GeoFilterOp.scaleExact w h, GeoFilterOp.setsar]

/-- Rendering of a filter chain to the textual `-vf` value. -/
def renderPlan (ops : List GeoFilterOp) : String :=
  String.intercalate "," (ops.map renderGeo)

/-- Embedding of the `vf` strings built verbatim at src/app.py lines 593-602. -/
def resize_vf (fit : String) (w h : Nat) (bg : String) : String :=
  if fit = "contain" then
    "scale=" ++ Nat.repr w ++ ":" ++ Nat.repr h ++
    ":force_original_aspect_ratio=decrease,pad=" ++ Nat.repr w ++ ":" ++ Nat.repr h ++
    ":(ow-iw)/2:(oh-ih)/2:color=" ++ bg ++ ",setsar=1"
  else if fit = "cover" then
    "scale=" ++ Nat.repr w ++ ":" ++ Nat.repr h ++
    ":force_original_aspect_ratio=increase,crop=" ++ Nat.repr w ++ ":" ++ Nat.repr h ++
    ",setsar=1"
  else
    "scale=" ++ Nat.repr w ++ ":" ++ Nat.repr h ++ ",setsar=1"

/-- Modelled from the spec: output dimensions of the engine's geometry
filters on a frame of (rational) dimensions `d`.  `scale=w:h` with
`force_original_aspect_ratio=decrease` (resp. `increase`) scales by the
smaller (resp. larger) of the two axis ratios, preserving aspect; `pad`
requires its input to fit inside the target and emits the target; `crop`
requires its input to cover the target and emits the target; `setsar` leaves
dimensions unchanged.  The engine is an external collaborator and not part
of src/. -/
def applyGeo (op : GeoFilterOp) (d : ℚ × ℚ) : Option (ℚ × ℚ) :=
  match op with
  | GeoFilterOp.scaleExact w h => some ((w : ℚ), (h : ℚ))
  | GeoFilterOp.scaleDecrease w h =>
      if 0 < d.1 ∧ 0 < d.2 then
        let f := min ((w : ℚ) / d.1) ((h : ℚ) / d.2)
        some (d.1 * f, d.2 * f)
      else none
  | GeoFilterOp.scaleIncrease w h =>
      if 0 < d.1 ∧ 0 < d.2 then
        let f := max ((w : ℚ) / d.1) ((h : ℚ) / d.2)
        some (d.1 * f, d.2 * f)
      else none
  | GeoFilterOp.padCentered w h _ =>
      if d.1 ≤ (w : ℚ) ∧ d.2 ≤ (h : ℚ) then some ((w : ℚ), (h : ℚ)) else none
  | GeoFilterOp.cropCentered w h =>
      if (w : ℚ) ≤ d.1 ∧ (h : ℚ) ≤ d.2 then some ((w : ℚ), (h : ℚ)) else none
  | GeoFilterOp.setsar => some d

/-- Output dimensions of a whole filter chain. -/
def evalPlan (ops : List GeoFilterOp) (d : ℚ × ℚ) : Option (ℚ × ℚ) :=
  ops.foldl (fun acc op => acc.bind (applyGeo op)) (some d)

/- ============================================================
   Full pipeline: full_pipeline (src/app.py lines 910-1100)
   ============================================================ -/

/-- The request fields that steer the full pipeline's control flow
(src/app.py lines 916-924): presence of the TTS audio, of a background music
URL, of subtitle text, the platform preset name, and the normalize flag. -/
structure PipelineRequest where
  audio_base64 : Bool
  background_music_url : Bool
  subtitles : Bool
  platform : Option String
  normalize : Bool
deriving DecidableEq

/-- Outcomes of the pipeline's external calls: the initial video download,
and each step's engine invocation (`run_ffmpeg(...)['success']`), plus the
background-music download. -/
structure EngineOracle where
  videoDownloadOk : Bool
  mergeOk : Bool
  musicDownloadOk : Bool
  musicOk : Bool
  subtitlesOk : Bool
  resizeOk : Bool
  normalizeOk : Bool
deriving DecidableEq

/-- Pipeline state: the `current_video` artifact and the
`steps_completed` log. -/
def PState := String × List String

/-- The `/full-pipeline` response: the ordered step log and the artifact the
final copy was made from, or a failure response (an early `return` with
`success: False` or the surrounding exception handler). -/
inductive PipelineResult where
  | ok : List String → String → PipelineResult
  | err : String → PipelineResult
deriving DecidableEq

/-- Step 2, merge with TTS audio (src/app.py lines 944-966): run only when
`audio_base64` is present; on engine failure the handler returns a 500
immediately (mandatory step). -/
def step_merge (req : PipelineRequest) (o : EngineOracle) (st : PState) :
    Except String PState :=
  if req.audio_base64 then
    if o.mergeOk then Except.ok ("02_merged.mp4", st.2 ++ ["merge_tts"])
    else Except.error ("Merge failed")
  else Except.ok st

/-- Step 3, background music (src/app.py lines 968-1005): run only when
`background_music_url` is present; the music download may raise (caught by
the handler's `except`); on engine failure `current_video` and the log are
left unchanged and execution continues. -/
def step_music (req : PipelineRequest) (o : EngineOracle) (st : PState) :
    Except String PState :=
  if req.background_music_url then
    if o.musicDownloadOk then
      if o.musicOk then Except.ok ("03_with_music.mp4", st.2 ++ ["add_music"])
      else Except.ok st
    else Except.error ("music download failed")
  else Except.ok st

/-- Step 4, subtitles (src/app.py lines 1007-1030): best effort, state
advances only on engine success. -/
def step_subtitles (req : PipelineRequest) (o : EngineOracle) (st : PState) : PState :=
  if req.subtitles then
    if o.subtitlesOk then ("04_subtitled.mp4", st.2 ++ ["add_subtitles"]) else st
  else st

/-- The platform presets dict of the pipeline (src/app.py lines 1034-1040). -/
def pipeline_presets : List (String × (Nat × Nat)) :=
  [("youtube_shorts", (1080, 1920)), ("tiktok", (1080, 1920)),
   ("instagram_reels", (1080, 1920)), ("instagram_feed", (1080, 1080)),
   ("youtube_long", (1920, 1080))]

/-- Step 5, resize to platform preset (src/app.py lines 1032-1063): run only
when the platform is a known preset; best effort. -/
def step_resize (req : PipelineRequest) (o : EngineOracle) (st : PState) : PState :=
  match req.platform with
  | some p =>
      match List.lookup p pipeline_presets with
      | some _ => if o.resizeOk then ("05_resized.mp4", st.2 ++ ["resize_" ++ p]) else st
      | none => st
  | none => st

/-- Step 6, loudness normalization (src/app.py lines 1065-1083): gated by the
`normalize` flag; best effort. -/
def step_normalize (req : PipelineRequest) (o : EngineOracle) (st : PState) : PState :=
  if req.normalize then
    if o.normalizeOk then ("06_normalized.mp4", st.2 ++ ["normalize_audio"]) else st
  else st

/-- Embedding of the `full_pipeline` handler (src/app.py lines 910-1100):
initial download (a raise is caught as a 500), then the five steps threading
`(current_video, steps_completed)`, then the final copy of `current_video`
to the public `final_{job_id}.mp4` name. -/
def full_pipeline (req : PipelineRequest) (o : EngineOracle) : PipelineResult :=
  if o.videoDownloadOk then
    match step_merge req o ("01_video.mp4", ["download_video"]) with
    | Except.error e => PipelineResult.err e
    | Except.ok st1 =>
      match step_music req o st1 with
      | Except.error e => PipelineResult.err e
      | Except.ok st2 =>
        let st3 := step_subtitles req o st2
        let st4 := step_resize req o st3
        let st5 := step_normalize req o st4
        PipelineResult.ok st5.2 st5.1
  else PipelineResult.err ("download failed")

/-- Whether the resize step runs and its engine invocation succeeds: the
platform is a known preset and the engine reported success. -/
def resizeRan (req : PipelineRequest) (o : EngineOracle) : Bool :=
  match req.platform with
  | some p => (List.lookup p pipeline_presets).isSome && o.resizeOk
  | none => false

/-- The log entry the resize step contributes. -/
def resizeTag (req : PipelineRequest) (o : EngineOracle) : List String :=
  match req.platform with
  | some p =>
      match List.lookup p pipeline_presets with
      | some _ => if o.resizeOk then ["resize_" ++ p] else []
      | none => []
  | none => []

/-- The step log the pipeline produces when the initial download succeeds and
the merge step does not fail: one entry per step that ran and whose engine
invocation succeeded, in pipeline order. -/
def expectedSteps (req : PipelineRequest) (o : EngineOracle) : List String :=
  ["download_video"] ++
  (if req.audio_base64 then ["merge_tts"] else []) ++
  (if req.background_music_url ∧ o.musicOk then ["add_music"] else []) ++
  (if req.subtitles ∧ o.subtitlesOk then ["add_subtitles"] else []) ++
  resizeTag req o ++
  (if req.normalize ∧ o.normalizeOk then ["normalize_audio"] else [])

/-- The artifact the final copy is made from under the same conditions: the
output of the last step that ran and succeeded. -/
def expectedFinal (req : PipelineRequest) (o : EngineOracle) : String :=
  let a1 := if req.audio_base64 then "02_merged.mp4" else "01_video.mp4"
  let a2 := if req.background_music_url ∧ o.musicOk then "03_with_music.mp4" else a1
  let a3 := if req.subtitles ∧ o.subtitlesOk then "04_subtitled.mp4" else a2
  let a4 := if resizeRan req o then "05_resized.mp4" else a3
  if req.normalize ∧ o.normalizeOk then "06_normalized.mp4" else a4

/- ============================================================
   Probe endpoint: probe_media (src/app.py lines 1107-1143)
   ============================================================ -/

/-- The `/probe` response: a 400 for a missing source, a 500 from the
exception handler, or the `success: True` JSON whose `info` field is the
(possibly `None`) value returned by `get_media_info`. -/
inductive ProbeResult where
  | badRequest : String → ProbeResult
  | ok : Option MediaInfo → ProbeResult
  | exceptionCaught : String → ProbeResult
deriving DecidableEq

/-- Embedding of the `probe_media` handler (src/app.py lines 1107-1143):
after resolving the source and downloading the file, it always returns
`{"success": True, "info": info}` where `info = get_media_info(file_path)` —
also when the ffprobe invocation exited nonzero and `info` is `None`. -/
def probe_media (hasSource : Bool) (dlOk : Bool) (probeRun : ProcResult)
    (parsed : MediaInfo) : ProbeResult :=
  if hasSource then
    if dlOk then ProbeResult.ok (get_media_info probeRun parsed)
    else ProbeResult.exceptionCaught ("download failed")
  else ProbeResult.badRequest ("url or job_id required")

/- ============================================================
   Theorems
   ============================================================ -/

/-- The characters of a Python tail slice are a drop of the original list. -/
theorem pyTailSlice_data (n : Nat) (s : String) :
    (pyTailSlice n s).data = s.data.drop (s.data.length - n) := rfl

/-- C5: every engine invocation performed by the step executor is reported
successful iff the engine's exit status is 0, and the captured stderr
diagnostics, when present, are at most 1000 characters and are a suffix of
the full stderr text. -/
theorem c5_executor_success_and_truncation (r : ProcResult) :
    ((run_ffmpeg r).success = true ↔ r.returncode = 0) ∧
    (∀ s, (run_ffmpeg r).stderr = some s →
      s.data.length ≤ 1000 ∧ List.IsSuffix s.data r.stderr.data) := by
  constructor
  · simp [run_ffmpeg]
  · intro s hs
    by_cases he : r.stderr = ""
    · simp [run_ffmpeg, he] at hs
    · unfold run_ffmpeg at hs
      rw [if_neg he] at hs
      simp only [Option.some.injEq] at hs
      subst hs
      rw [pyTailSlice_data]
      refine ⟨?_, ?_⟩
      · rw [List.length_drop]
        omega
      · exact List.drop_suffix _ _

/-- Witness for C5 at a concrete failing invocation with short stderr. -/
theorem c5_executor_witness :
    ((run_ffmpeg ⟨2, "", "boom"⟩).success = true ↔ (2 : Int) = 0) ∧
    ("boom".data.length ≤ 1000 ∧ List.IsSuffix "boom".data "boom".data) :=
  ⟨(c5_executor_success_and_truncation ⟨2, "", "boom"⟩).1,
   (c5_executor_success_and_truncation ⟨2, "", "boom"⟩).2 "boom" rfl⟩

/-- C7 counterexample: the constructed style string does not depend on the
request's font or outline colour (here red/blue versus white/black give the
identical string), and positions bottom and top get the same vertical margin
50, so the margins are not distinct. -/
theorem c7_style_counterexample :
    subtitle_force_style 24 ("red") ("blue") ("bottom")
      = subtitle_force_style 24 ("white") ("black") ("bottom") ∧
    sub_margin_v ("bottom") = sub_margin_v ("top") ∧
    sub_margin_v ("bottom") = 50 ∧ sub_margin_v ("top") = 50 :=
  ⟨rfl, rfl, rfl, rfl⟩

/-- C7 (amended): the style string maps the font size into the grammar and
positions bottom/top select distinct alignment anchors (2 versus 6), but the
colours are the fixed literals white and black regardless of the requested
colours, and the vertical margin is 50 for every position. -/
theorem c7_style_amended (font_size : Nat) (font_color outline_color position : String) :
    subtitle_force_style font_size font_color outline_color position =
      "FontSize=" ++ Nat.repr font_size ++
      ",PrimaryColour=&H00FFFFFF" ++ ",OutlineColour=&H00000000" ++
      ",BorderStyle=3" ++ ",Outline=2" ++
      ",MarginV=" ++ Nat.repr 50 ++
      ",Alignment=" ++ Nat.repr (if position = "bottom" then 2 else 6) ∧
    sub_margin_v position = 50 ∧
    sub_alignment ("bottom") = 2 ∧ sub_alignment ("top") = 6 ∧
    sub_alignment ("bottom") ≠ sub_alignment ("top") := by
  refine ⟨?_, ?_, rfl, rfl, by decide⟩
  · unfold subtitle_force_style sub_margin_v sub_alignment
    by_cases h : position = "bottom" <;> simp [h]
  · unfold sub_margin_v
    by_cases h : position = "bottom" <;> simp [h]

/-- C9 counterexample: with a nonzero ffprobe exit status the probe endpoint
still answers with a success-flagged response whose metadata is absent. -/
theorem c9_probe_counterexample :
    probe_media true true ⟨1, "", ""⟩ ⟨0⟩ = ProbeResult.ok none ∧
    get_media_info ⟨1, "", ""⟩ ⟨0⟩ = none := by
  constructor <;> rfl

/-- C9 (amended): whenever the ffprobe invocation exits nonzero,
`get_media_info` yields no metadata and `probe_media` nevertheless returns
the success-flagged response with absent metadata — the failure is silently
swallowed rather than surfaced. -/
theorem c9_probe_amended (r : ProcResult) (parsed : MediaInfo)
    (h : r.returncode ≠ 0) :
    get_media_info r parsed = none ∧
    probe_media true true r parsed = ProbeResult.ok none := by
  have hg : get_media_info r parsed = none := by simp [get_media_info, h]
  exact ⟨hg, by simp [probe_media, hg]⟩

/-- Witness for C9 (amended) at a concrete nonzero exit status. -/
theorem c9_probe_amended_witness :
    get_media_info ⟨1, "out", "err"⟩ ⟨60⟩ = none ∧
    probe_media true true ⟨1, "out", "err"⟩ ⟨60⟩ = ProbeResult.ok none :=
  c9_probe_amended ⟨1, "out", "err"⟩ ⟨60⟩ (by decide)

/-- C4: the constructed background-music mix expression ends in the amix
stage whose first listed input is the voice stream and whose duration mode is
`first`, and under the engine's `duration=first` semantics the declared mix
duration of a primary track of duration D with any (possibly looped)
secondary track is exactly D, hence never exceeds D. -/
theorem c4_mix_duration_bound (voice_vol music_vol : String) (loop_music : Bool)
    (fade_out : ℚ) (fade_st fade_d : String) (D m : ℚ) :
    (∃ pre, abm_filter_complex voice_vol music_vol loop_music fade_out fade_st fade_d
        = pre ++ "[voice][music]amix=inputs=2:duration=first[aout]") ∧
    amixFirstDuration [D, m] = D ∧ amixFirstDuration [D, m] ≤ D :=
  ⟨⟨_, rfl⟩, rfl, le_refl D⟩

/-- When every entry of the videos list has a recognized source key and
downloads successfully, the resolution loop completes without an error. -/
theorem resolveClips_ok (clips : List ClipSpec)
    (h : ∀ c ∈ clips, c = ClipSpec.fetch true) :
    ∀ i, resolveClips clips i = Except.ok () := by
  induction clips with
  | nil => intro i; rfl
  | cons c rest ih =>
      intro i
      have hc := h c (by simp)
      subst hc
      simp only [resolveClips, if_pos rfl]
      exact ih (fun x hx => h x (by simp [hx])) (i + 1)

/-- C8: a concat request with fewer than 2 clips is rejected with the 400
invalid-parameters response before any filter expression is built or engine
command assembled; and on valid structured input (at least 2 resolvable
clips, fade transition) the expression builder never fails — the handler
reaches the engine with the built fade filter expression. -/
theorem c8_concat_validation (jobId : String) (clips : List ClipSpec)
    (transition d : String) :
    (clips.length < 2 →
      concat_videos jobId clips transition d
        = ConcatResult.badRequest ("At least 2 videos required") ∧
      ∀ cmd, concat_videos jobId clips transition d ≠ ConcatResult.engineRun cmd) ∧
    (2 ≤ clips.length → (∀ c ∈ clips, c = ClipSpec.fetch true) → transition = "fade" →
      concat_videos jobId clips transition d
        = ConcatResult.engineRun
            (concatTransCmd jobId clips.length (fadeFilterComplex clips.length d))) := by
  constructor
  · intro hlt
    have he : concat_videos jobId clips transition d
        = ConcatResult.badRequest ("At least 2 videos required") := by
      simp [concat_videos, hlt]
    exact ⟨he, fun cmd hc => by rw [he] at hc; exact ConcatResult.noConfusion hc⟩
  · intro hge hall hf
    subst hf
    have hlt : ¬ clips.length < 2 := by omega
    simp [concat_videos, hlt, resolveClips_ok clips hall 0]

/-- Witness for C8: one clip is rejected with the 400; two resolvable clips
with the fade transition reach the engine with the built expression. -/
theorem c8_concat_validation_witness :
    concat_videos ("j1") [ClipSpec.fetch true] ("fade") ("0.5")
      = ConcatResult.badRequest ("At least 2 videos required") ∧
    concat_videos ("j1") [ClipSpec.fetch true, ClipSpec.fetch true] ("fade") ("0.5")
      = ConcatResult.engineRun (concatTransCmd ("j1") 2 (fadeFilterComplex 2 ("0.5"))) :=
  ⟨((c8_concat_validation ("j1") [ClipSpec.fetch true] ("fade") ("0.5")).1
      (by decide)).1,
   (c8_concat_validation ("j1") [ClipSpec.fetch true, ClipSpec.fetch true]
      ("fade") ("0.5")).2 (by decide) (by decide) rfl⟩

/-- C10: a concat request with at least 2 resolvable clips and a transition
that is neither none nor fade never reaches the engine: the filter variable
is assigned only in the fade branch, so assembling the command raises a
NameError that the request boundary turns into a failure response. -/
theorem c10_unknown_transition (jobId : String) (clips : List ClipSpec)
    (transition d : String) (hge : 2 ≤ clips.length)
    (hall : ∀ c ∈ clips, c = ClipSpec.fetch true)
    (hn : transition ≠ "none") (hf : transition ≠ "fade") :
    concat_videos jobId clips transition d
      = ConcatResult.exceptionCaught
          ("name " ++ squote ++ "filter_complex" ++ squote ++ " is not defined") ∧
    ∀ cmd, concat_videos jobId clips transition d ≠ ConcatResult.engineRun cmd := by
  have hlt : ¬ clips.length < 2 := by omega
  have he : concat_videos jobId clips transition d
      = ConcatResult.exceptionCaught
          ("name " ++ squote ++ "filter_complex" ++ squote ++ " is not defined") := by
    simp [concat_videos, hlt, resolveClips_ok clips hall 0, hn, hf]
  exact ⟨he, fun cmd hc => by rw [he] at hc; exact ConcatResult.noConfusion hc⟩

/-- Witness for C10 at the dissolve transition over two resolvable clips. -/
theorem c10_unknown_transition_witness :
    concat_videos ("j2") [ClipSpec.fetch true, ClipSpec.fetch true] ("dissolve") ("0.5")
      = ConcatResult.exceptionCaught
          ("name " ++ squote ++ "filter_complex" ++ squote ++ " is not defined") :=
  (c10_unknown_transition ("j2") [ClipSpec.fetch true, ClipSpec.fetch true]
    ("dissolve") ("0.5") (by decide) (by decide) (by decide) (by decide)).1

/-- C1: for a fade concat over n ≥ 2 clips the built expression contains
exactly n-1 crossfade stages; the first stage's offset is 0; for every i>0
stage i's left input label is exactly stage i-1's output label and is never a
raw clip label; and the last stage's output pad is the one the expression
pipes into the designated result pad [vfinal] that the command maps. -/
theorem c1_crossfade_chain (n : Nat) (d : String) (hn : 2 ≤ n) :
    (xfadeStages n).length = n - 1 ∧
    (mkXfadeStage 0).offset = "0" ∧
    (∀ i, i < n - 1 → (xfadeStages n)[i]? = some (mkXfadeStage i)) ∧
    (∀ i, 0 < i → i < n - 1 →
      (mkXfadeStage i).left = (mkXfadeStage (i - 1)).out ∧
      ∀ j, (mkXfadeStage i).left ≠ PadLabel.clip j) ∧
    (mkXfadeStage (n - 2)).out = PadLabel.inter (n - 2) ∧
    (∃ pre, fadeFilterComplex n d
        = pre ++ (renderLabel (PadLabel.inter (n - 2)) ++ "null" ++
            renderLabel PadLabel.vfinal)) := by
  refine ⟨?_, rfl, ?_, ?_, ?_, ⟨_, rfl⟩⟩
  · simp [xfadeStages]
  · intro i hi
    simp [xfadeStages, List.getElem?_map, List.getElem?_range, hi]
  · intro i hi0 hi
    have hne : i ≠ 0 := Nat.pos_iff_ne_zero.mp hi0
    constructor
    · simp only [mkXfadeStage, if_neg hne]
      by_cases h1 : i - 1 = 0
      · simp [h1]
      · simp [if_neg h1]
    · simp [mkXfadeStage, hne]
  · by_cases h2 : n - 2 = 0
    · simp [mkXfadeStage, h2]
    · simp [mkXfadeStage, h2]

set_option maxRecDepth 4000 in
/-- Witness for C1 at three clips with a 0.5s transition, together with the
fully evaluated expression text for that instance. -/
theorem c1_crossfade_chain_witness :
    (xfadeStages 3).length = 2 ∧
    (mkXfadeStage 1).left = (mkXfadeStage 0).out ∧
    (∀ j, (mkXfadeStage 1).left ≠ PadLabel.clip j) ∧
    fadeFilterComplex 3 ("0.5") =
      "[0:v]setpts=PTS-STARTPTS[v0];[0:a]asetpts=PTS-STARTPTS[a0];" ++
      "[1:v]setpts=PTS-STARTPTS[v1];[1:a]asetpts=PTS-STARTPTS[a1];" ++
      "[2:v]setpts=PTS-STARTPTS[v2];[2:a]asetpts=PTS-STARTPTS[a2];" ++
      "[v0][v1]xfade=transition=fade:duration=0.5:offset=0[vout0];" ++
      "[vout0][v2]xfade=transition=fade:duration=0.5:offset=0[vout1];" ++
      "[vout1]null[vfinal]" :=
  ⟨(c1_crossfade_chain 3 ("0.5") (by decide)).1,
   ((c1_crossfade_chain 3 ("0.5") (by decide)).2.2.2.1 1 (by decide) (by decide)).1,
   ((c1_crossfade_chain 3 ("0.5") (by decide)).2.2.2.1 1 (by decide) (by decide)).2,
   rfl⟩

/-- Unfolding step for evaluating a geometry chain. -/
theorem evalPlan_cons (op : GeoFilterOp) (ops : List GeoFilterOp) (d d' : ℚ × ℚ)
    (h : applyGeo op d = some d') : evalPlan (op :: ops) d = evalPlan ops d' := by
  simp [evalPlan, List.foldl, h]

/-- Scaling by the smaller axis ratio stays within the target on that axis. -/
theorem mul_min_div_le (t o x : ℚ) (hx : 0 < x) : x * min (t / x) o ≤ t := by
  have h1 : x * min (t / x) o ≤ x * (t / x) :=
    mul_le_mul_of_nonneg_left (min_le_left _ _) hx.le
  have h2 : x * (t / x) = t := by
    rw [mul_comm]
    exact div_mul_cancel₀ _ (ne_of_gt hx)
  linarith

/-- Symmetric version of `mul_min_div_le` for the second axis. -/
theorem mul_min_div_le' (t o x : ℚ) (hx : 0 < x) : x * min o (t / x) ≤ t := by
  rw [min_comm]
  exact mul_min_div_le t o x hx

/-- Scaling by the larger axis ratio covers the target on that axis. -/
theorem le_mul_max_div (t o x : ℚ) (hx : 0 < x) : t ≤ x * max (t / x) o := by
  have h1 : x * (t / x) ≤ x * max (t / x) o :=
    mul_le_mul_of_nonneg_left (le_max_left _ _) hx.le
  have h2 : x * (t / x) = t := by
    rw [mul_comm]
    exact div_mul_cancel₀ _ (ne_of_gt hx)
  linarith

/-- Symmetric version of `le_mul_max_div` for the second axis. -/
theorem le_mul_max_div' (t o x : ℚ) (hx : 0 < x) : t ≤ x * max o (t / x) := by
  rw [max_comm]
  exact le_mul_max_div t o x hx

/-- C6: each of the three fit modes produces a chain whose output dimensions
are exactly the requested target — contain scales down preserving aspect then
pads (with the fill colour, centered) to the target, cover scales up
preserving aspect then center-crops to the target without any pad stage, and
stretch scales non-uniformly straight to the target; and each structured
chain renders to exactly the vf string the handler builds. -/
theorem c6_resize_exact_dims (w h : Nat) (bg : String) (iw ih : ℚ)
    (hw : 0 < w) (hh : 0 < h) (hiw : 0 < iw) (hih : 0 < ih) :
    evalPlan (resizePlan ("contain") w h bg) (iw, ih) = some ((w : ℚ), (h : ℚ)) ∧
    evalPlan (resizePlan ("cover") w h bg) (iw, ih) = some ((w : ℚ), (h : ℚ)) ∧
    evalPlan (resizePlan ("stretch") w h bg) (iw, ih) = some ((w : ℚ), (h : ℚ)) ∧
    (∀ a b c, GeoFilterOp.padCentered a b c ∉ resizePlan ("cover") w h bg) ∧
    renderPlan (resizePlan ("contain") w h bg) = resize_vf ("contain") w h bg ∧
    renderPlan (resizePlan ("cover") w h bg) = resize_vf ("cover") w h bg ∧
    renderPlan (resizePlan ("stretch") w h bg) = resize_vf ("stretch") w h bg := by
  have hwq : (0 : ℚ) < (w : ℚ) := by exact_mod_cast hw
  have hhq : (0 : ℚ) < (h : ℚ) := by exact_mod_cast hh
  refine ⟨?_, ?_, ?_, ?_, ?_, ?_, ?_⟩
  · rw [show resizePlan ("contain") w h bg =
      [GeoFilterOp.scaleDecrease w h, GeoFilterOp.padCentered w h bg,
       GeoFilterOp.setsar] from rfl]
    have hA : applyGeo (GeoFilterOp.scaleDecrease w h) (iw, ih)
        = some (iw * min ((w : ℚ) / iw) ((h : ℚ) / ih),
                ih * min ((w : ℚ) / iw) ((h : ℚ) / ih)) := by
      simp [applyGeo, hiw, hih]
    have hB : applyGeo (GeoFilterOp.padCentered w h bg)
        (iw * min ((w : ℚ) / iw) ((h : ℚ) / ih),
         ih * min ((w : ℚ) / iw) ((h : ℚ) / ih)) = some ((w : ℚ), (h : ℚ)) := by
      have l1 := mul_min_div_le (w : ℚ) ((h : ℚ) / ih) iw hiw
      have l2 := mul_min_div_le' (h : ℚ) ((w : ℚ) / iw) ih hih
      simp only [applyGeo]
      rw [if_pos ⟨l1, l2⟩]
    rw [evalPlan_cons _ _ _ _ hA, evalPlan_cons _ _ _ _ hB]
    rfl
  · rw [show resizePlan ("cover") w h bg =
      [GeoFilterOp.scaleIncrease w h, GeoFilterOp.cropCentered w h,
       GeoFilterOp.setsar] from rfl]
    have hA : applyGeo (GeoFilterOp.scaleIncrease w h) (iw, ih)
        = some (iw * max ((w : ℚ) / iw) ((h : ℚ) / ih),
                ih * max ((w : ℚ) / iw) ((h : ℚ) / ih)) := by
      simp [applyGeo, hiw, hih]
    have hB : applyGeo (GeoFilterOp.cropCentered w h)
        (iw * max ((w : ℚ) / iw) ((h : ℚ) / ih),
         ih * max ((w : ℚ) / iw) ((h : ℚ) / ih)) = some ((w : ℚ), (h : ℚ)) := by
      have l1 := le_mul_max_div (w : ℚ) ((h : ℚ) / ih) iw hiw
      have l2 := le_mul_max_div' (h : ℚ) ((w : ℚ) / iw) ih hih
      simp only [applyGeo]
      rw [if_pos ⟨l1, l2⟩]
    rw [evalPlan_cons _ _ _ _ hA, evalPlan_cons _ _ _ _ hB]
    rfl
  · rw [show resizePlan ("stretch") w h bg =
      [GeoFilterOp.scaleExact w h, GeoFilterOp.setsar] from rfl]
    rfl
  · intro a b c hmem
    rw [show resizePlan ("cover") w h bg =
      [GeoFilterOp.scaleIncrease w h, GeoFilterOp.cropCentered w h,
       GeoFilterOp.setsar] from rfl] at hmem
    simp at hmem
  · apply String.ext
    rw [show resizePlan ("contain") w h bg =
      [GeoFilterOp.scaleDecrease w h, GeoFilterOp.padCentered w h bg,
       GeoFilterOp.setsar] from rfl,
      show resize_vf ("contain") w h bg =
        "scale=" ++ Nat.repr w ++ ":" ++ Nat.repr h ++
        ":force_original_aspect_ratio=decrease,pad=" ++ Nat.repr w ++ ":" ++
        Nat.repr h ++ ":(ow-iw)/2:(oh-ih)/2:color=" ++ bg ++ ",setsar=1" from rfl]
    simp [renderPlan, renderGeo, String.intercalate, String.intercalate.go,
      String.data_append, List.append_assoc]
  · apply String.ext
    rw [show resizePlan ("cover") w h bg =
      [GeoFilterOp.scaleIncrease w h, GeoFilterOp.cropCentered w h,
       GeoFilterOp.setsar] from rfl,
      show resize_vf ("cover") w h bg =
        "scale=" ++ Nat.repr w ++ ":" ++ Nat.repr h ++
        ":force_original_aspect_ratio=increase,crop=" ++ Nat.repr w ++ ":" ++
        Nat.repr h ++ ",setsar=1" from rfl]
    simp [renderPlan, renderGeo, String.intercalate, String.intercalate.go,
      String.data_append, List.append_assoc]
  · apply String.ext
    rw [show resizePlan ("stretch") w h bg =
      [GeoFilterOp.scaleExact w h, GeoFilterOp.setsar] from rfl,
      show resize_vf ("stretch") w h bg =
        "scale=" ++ Nat.repr w ++ ":" ++ Nat.repr h ++ ",setsar=1" from rfl]
    simp [renderPlan, renderGeo, String.intercalate, String.intercalate.go,
      String.data_append, List.append_assoc]

/-- Witness for C6: a 1920×1080 input resized to the 1080×1920 portrait
target under each fit mode. -/
theorem c6_resize_exact_dims_witness :
    evalPlan (resizePlan ("contain") 1080 1920 ("black")) ((1920 : ℚ), (1080 : ℚ))
      = some ((1080 : ℚ), (1920 : ℚ)) ∧
    evalPlan (resizePlan ("cover") 1080 1920 ("black")) ((1920 : ℚ), (1080 : ℚ))
      = some ((1080 : ℚ), (1920 : ℚ)) ∧
    evalPlan (resizePlan ("stretch") 1080 1920 ("black")) ((1920 : ℚ), (1080 : ℚ))
      = some ((1080 : ℚ), (1920 : ℚ)) :=
  ⟨(c6_resize_exact_dims 1080 1920 ("black") 1920 1080 (by decide) (by decide)
      (by decide) (by decide)).1,
   (c6_resize_exact_dims 1080 1920 ("black") 1920 1080 (by decide) (by decide)
      (by decide) (by decide)).2.1,
   (c6_resize_exact_dims 1080 1920 ("black") 1920 1080 (by decide) (by decide)
      (by decide) (by decide)).2.2.1⟩

/-- Equation for the merge stage when a required merge succeeds. -/
theorem step_merge_eq (req : PipelineRequest) (o : EngineOracle) (st : PState)
    (h2 : req.audio_base64 = true → o.mergeOk = true) :
    step_merge req o st = Except.ok
      ((if req.audio_base64 then "02_merged.mp4" else st.1),
       st.2 ++ (if req.audio_base64 then ["merge_tts"] else [])) := by
  by_cases hab : req.audio_base64 = true
  · simp [step_merge, hab, h2 hab]
  · simp [step_merge, hab]

/-- Equation for the background-music stage when its download succeeds: on
engine failure the state is unchanged, on success it advances. -/
theorem step_music_eq (req : PipelineRequest) (o : EngineOracle) (st : PState)
    (h3 : req.background_music_url = true → o.musicDownloadOk = true) :
    step_music req o st = Except.ok
      ((if req.background_music_url ∧ o.musicOk then "03_with_music.mp4" else st.1),
       st.2 ++ (if req.background_music_url ∧ o.musicOk then ["add_music"] else [])) := by
  by_cases hbm : req.background_music_url = true
  · have hmd := h3 hbm
    by_cases hmu : o.musicOk = true
    · simp [step_music, hbm, hmd, hmu]
    · simp [step_music, hbm, hmd, hmu]
  · simp [step_music, hbm]

/-- Equation for the subtitle stage. -/
theorem step_subtitles_eq (req : PipelineRequest) (o : EngineOracle) (st : PState) :
    step_subtitles req o st =
      ((if req.subtitles ∧ o.subtitlesOk then "04_subtitled.mp4" else st.1),
       st.2 ++ (if req.subtitles ∧ o.subtitlesOk then ["add_subtitles"] else [])) := by
  by_cases hs : req.subtitles = true
  · by_cases ho : o.subtitlesOk = true <;> simp [step_subtitles, hs, ho]
  · simp [step_subtitles, hs]

/-- Equation for the resize stage. -/
theorem step_resize_eq (req : PipelineRequest) (o : EngineOracle) (st : PState) :
    step_resize req o st =
      ((if resizeRan req o then "05_resized.mp4" else st.1),
       st.2 ++ resizeTag req o) := by
  unfold step_resize resizeRan resizeTag
  cases hp : req.platform with
  | none => simp
  | some p =>
      cases hl : List.lookup p pipeline_presets with
      | none => simp [hl]
      | some v => by_cases hro : o.resizeOk = true <;> simp [hl, hro]

/-- Equation for the normalize stage. -/
theorem step_normalize_eq (req : PipelineRequest) (o : EngineOracle) (st : PState) :
    step_normalize req o st =
      ((if req.normalize ∧ o.normalizeOk then "06_normalized.mp4" else st.1),
       st.2 ++ (if req.normalize ∧ o.normalizeOk then ["normalize_audio"] else [])) := by
  by_cases hs : req.normalize = true
  · by_cases ho : o.normalizeOk = true <;> simp [step_normalize, hs, ho]
  · simp [step_normalize, hs]

/-- The full pipeline, when the initial download succeeds, the merge (if
required) succeeds and the music download (if required) succeeds, reports
overall success with exactly the expected step log and final artifact. -/
theorem full_pipeline_eq (req : PipelineRequest) (o : EngineOracle)
    (h1 : o.videoDownloadOk = true)
    (h2 : req.audio_base64 = true → o.mergeOk = true)
    (h3 : req.background_music_url = true → o.musicDownloadOk = true) :
    full_pipeline req o
      = PipelineResult.ok (expectedSteps req o) (expectedFinal req o) := by
  have e1 := fun st => step_merge_eq req o st h2
  have e2 := fun st => step_music_eq req o st h3
  simp only [full_pipeline, h1, if_true, e1, e2, step_subtitles_eq, step_resize_eq,
    step_normalize_eq, expectedSteps, expectedFinal]

/-- Either the resize step contributes nothing to the log, or it contributes
the single resize-tagged entry for the requested platform. -/
theorem resizeTag_cases (req : PipelineRequest) (o : EngineOracle) :
    resizeTag req o = [] ∨ ∃ p, resizeTag req o = ["resize_" ++ p] := by
  unfold resizeTag
  cases req.platform with
  | none => exact Or.inl rfl
  | some p =>
      cases hl : List.lookup p pipeline_presets with
      | none => exact Or.inl (by simp [hl])
      | some v =>
          by_cases hro : o.resizeOk = true
          · exact Or.inr ⟨p, by simp [hl, hro]⟩
          · exact Or.inl (by simp [hl, hro])

/-- If the resize engine invocation fails the resize step logs nothing. -/
theorem resizeTag_of_resize_fail (req : PipelineRequest) (o : EngineOracle)
    (h : o.resizeOk = false) : resizeTag req o = [] := by
  unfold resizeTag
  cases req.platform with
  | none => rfl
  | some p =>
      cases hl : List.lookup p pipeline_presets with
      | none => simp [hl]
      | some v => simp [hl, h]

/-- A string whose first character is not the r of a resize tag is not in the
resize contribution to the log. -/
theorem not_mem_resizeTag_of_head (req : PipelineRequest) (o : EngineOracle)
    (x : String) (hhead : x.data.head? ≠ some ('r')) : x ∉ resizeTag req o := by
  intro hx
  rcases resizeTag_cases req o with h0 | ⟨p, hp⟩
  · rw [h0] at hx
    simp at hx
  · rw [hp] at hx
    simp only [List.mem_singleton] at hx
    exact hhead (by rw [hx]; exact rfl)

/-- Membership extraction from a conditional singleton contribution. -/
theorem mem_of_mem_ite_nil {α : Type} {c : Prop} [Decidable c] {x : α} {l : List α}
    (h : x ∈ if c then l else []) : x ∈ l ∧ c := by
  split at h
  · exact ⟨h, by assumption⟩
  · simp at h

/-- Every entry of the expected step log is one of the six step names, and an
optional entry is present only when its step ran and succeeded. -/
theorem expectedSteps_shapes (req : PipelineRequest) (o : EngineOracle) (x : String)
    (hx : x ∈ expectedSteps req o) :
    x = "download_video" ∨
    (x = "merge_tts" ∧ req.audio_base64 = true) ∨
    (x = "add_music" ∧ (req.background_music_url ∧ o.musicOk)) ∨
    (x = "add_subtitles" ∧ (req.subtitles ∧ o.subtitlesOk)) ∨
    x ∈ resizeTag req o ∨
    (x = "normalize_audio" ∧ (req.normalize ∧ o.normalizeOk)) := by
  unfold expectedSteps at hx
  simp only [List.mem_append] at hx
  rcases hx with ((((h | h) | h) | h) | h) | h
  · simp at h
    exact Or.inl h
  · have hc := mem_of_mem_ite_nil h
    simp at hc
    exact Or.inr (Or.inl hc)
  · have hc := mem_of_mem_ite_nil h
    rcases hc with ⟨hm, hc⟩
    simp at hm
    exact Or.inr (Or.inr (Or.inl ⟨hm, hc⟩))
  · have hc := mem_of_mem_ite_nil h
    rcases hc with ⟨hm, hc⟩
    simp at hm
    exact Or.inr (Or.inr (Or.inr (Or.inl ⟨hm, hc⟩)))
  · exact Or.inr (Or.inr (Or.inr (Or.inr (Or.inl h))))
  · have hc := mem_of_mem_ite_nil h
    rcases hc with ⟨hm, hc⟩
    simp at hm
    exact Or.inr (Or.inr (Or.inr (Or.inr (Or.inr ⟨hm, hc⟩))))

/-- A string whose first character differs from r never equals a
resize-tagged log entry. -/
theorem resize_prefixed_ne (p t : String) (h : t.data.head? ≠ some ('r')) :
    "resize_" ++ p ≠ t := by
  intro he
  exact h (by rw [← he]; exact rfl)

/-- C2: under a successful download and merge, the pipeline reports overall
success with the expected log and final artifact; an optional step whose
engine invocation fails (music, subtitles, resize, normalize) leaves no entry
in the log — the current artifact is unchanged at that step and later steps
still run and are logged. -/
theorem c2_optional_step_failure (req : PipelineRequest) (o : EngineOracle)
    (h1 : o.videoDownloadOk = true)
    (h2 : req.audio_base64 = true → o.mergeOk = true)
    (h3 : req.background_music_url = true → o.musicDownloadOk = true) :
    full_pipeline req o
      = PipelineResult.ok (expectedSteps req o) (expectedFinal req o) ∧
    (o.musicOk = false → "add_music" ∉ expectedSteps req o) ∧
    (o.subtitlesOk = false → "add_subtitles" ∉ expectedSteps req o) ∧
    (o.resizeOk = false → ∀ p, ("resize_" ++ p) ∉ expectedSteps req o) ∧
    (o.normalizeOk = false → "normalize_audio" ∉ expectedSteps req o) ∧
    (req.normalize = true → o.normalizeOk = true →
      "normalize_audio" ∈ expectedSteps req o) := by
  refine ⟨full_pipeline_eq req o h1 h2 h3, ?_, ?_, ?_, ?_, ?_⟩
  · intro hmu hmem
    rcases expectedSteps_shapes req o _ hmem with
      h | ⟨h, _⟩ | ⟨_, _, hc⟩ | ⟨h, _⟩ | h | ⟨h, _⟩
    · exact absurd h (by decide)
    · exact absurd h (by decide)
    · rw [hmu] at hc
      exact Bool.noConfusion hc
    · exact absurd h (by decide)
    · exact not_mem_resizeTag_of_head req o _ (by decide) h
    · exact absurd h (by decide)
  · intro hso hmem
    rcases expectedSteps_shapes req o _ hmem with
      h | ⟨h, _⟩ | ⟨h, _⟩ | ⟨_, _, hc⟩ | h | ⟨h, _⟩
    · exact absurd h (by decide)
    · exact absurd h (by decide)
    · exact absurd h (by decide)
    · rw [hso] at hc
      exact Bool.noConfusion hc
    · exact not_mem_resizeTag_of_head req o _ (by decide) h
    · exact absurd h (by decide)
  · intro hro p hmem
    rcases expectedSteps_shapes req o _ hmem with
      h | ⟨h, _⟩ | ⟨h, _⟩ | ⟨h, _⟩ | h | ⟨h, _⟩
    · exact resize_prefixed_ne p _ (by decide) h
    · exact resize_prefixed_ne p _ (by decide) h
    · exact resize_prefixed_ne p _ (by decide) h
    · exact resize_prefixed_ne p _ (by decide) h
    · rw [resizeTag_of_resize_fail req o hro] at h
      simp at h
    · exact resize_prefixed_ne p _ (by decide) h
  · intro hno hmem
    rcases expectedSteps_shapes req o _ hmem with
      h | ⟨h, _⟩ | ⟨h, _⟩ | ⟨h, _⟩ | h | ⟨_, _, hc⟩
    · exact absurd h (by decide)
    · exact absurd h (by decide)
    · exact absurd h (by decide)
    · exact absurd h (by decide)
    · exact not_mem_resizeTag_of_head req o _ (by decide) h
    · rw [hno] at hc
      exact Bool.noConfusion hc
  · intro hn1 hn2
    unfold expectedSteps
    refine List.mem_append.mpr (Or.inr ?_)
    simp [hn1, hn2]

/-- Witness for C2: music enabled but its engine invocation fails, subtitles,
resize and normalize succeed — the job succeeds, the music entry is absent,
later steps still run, and the final artifact is the normalized output. -/
theorem c2_optional_step_failure_witness :
    full_pipeline ⟨true, true, true, some ("tiktok"), true⟩
        ⟨true, true, true, false, true, true, true⟩
      = PipelineResult.ok
          (expectedSteps ⟨true, true, true, some ("tiktok"), true⟩
            ⟨true, true, true, false, true, true, true⟩)
          (expectedFinal ⟨true, true, true, some ("tiktok"), true⟩
            ⟨true, true, true, false, true, true, true⟩) ∧
    "add_music" ∉ expectedSteps ⟨true, true, true, some ("tiktok"), true⟩
        ⟨true, true, true, false, true, true, true⟩ ∧
    "normalize_audio" ∈ expectedSteps ⟨true, true, true, some ("tiktok"), true⟩
        ⟨true, true, true, false, true, true, true⟩ ∧
    expectedSteps ⟨true, true, true, some ("tiktok"), true⟩
        ⟨true, true, true, false, true, true, true⟩
      = ["download_video", "merge_tts", "add_subtitles", "resize_tiktok",
         "normalize_audio"] ∧
    expectedFinal ⟨true, true, true, some ("tiktok"), true⟩
        ⟨true, true, true, false, true, true, true⟩ = "06_normalized.mp4" :=
  ⟨(c2_optional_step_failure _ _ rfl (fun _ => rfl) (fun _ => rfl)).1,
   (c2_optional_step_failure _ _ rfl (fun _ => rfl) (fun _ => rfl)).2.1 rfl,
   (c2_optional_step_failure _ _ rfl (fun _ => rfl) (fun _ => rfl)).2.2.2.2.2 rfl rfl,
   rfl, rfl⟩

/-- C3: when a narration source was supplied and the merge engine invocation
fails, the pipeline aborts with a failure response: no success response with
any step log or final artifact is produced. -/
theorem c3_mandatory_merge_failure (req : PipelineRequest) (o : EngineOracle)
    (hd : o.videoDownloadOk = true) (ha : req.audio_base64 = true)
    (hm : o.mergeOk = false) :
    full_pipeline req o = PipelineResult.err ("Merge failed") ∧
    ∀ steps fin, full_pipeline req o ≠ PipelineResult.ok steps fin := by
  have he : full_pipeline req o = PipelineResult.err ("Merge failed") := by
    simp [full_pipeline, hd, step_merge, ha, hm]
  exact ⟨he, fun steps fin hc => by
    rw [he] at hc
    exact PipelineResult.noConfusion hc⟩

/-- Witness for C3: narration supplied, merge engine fails, everything else
would have succeeded — the run is aborted with the failure response. -/
theorem c3_mandatory_merge_failure_witness :
    full_pipeline ⟨true, false, false, none, false⟩
        ⟨true, false, true, true, true, true, true⟩
      = PipelineResult.err ("Merge failed") :=
  (c3_mandatory_merge_failure ⟨true, false, false, none, false⟩
    ⟨true, false, true, true, true, true, true⟩ rfl rfl rfl).1
